import Mathlib

/-!
Shallow embedding of the pi-robot differential-drive control core:
`motor_controller.py` (arcade mixing and per-side motor actuation),
`autonomous_vl53l0x.py` (obstacle-avoidance loop), and `teleop_web.py`
(deadman watchdog, drive/status API).  Floats are modelled as rationals,
hardware writes as explicit event lists, the control loop as a per-tick
step function with the random draws passed in as parameters.
-/

namespace PiRobot

/-- `MotorController._clamp`: `lo if v < lo else hi if v > hi else v`. -/
def clamp (v lo hi : ℚ) : ℚ :=
  if v < lo then lo else if hi < v then hi else v

/-- A signed per-side wheel command pair, as produced by `drive_arcade`. -/
structure WheelCommand where
  left : ℚ
  right : ℚ
deriving DecidableEq, Repr

/-- The pre-calibration part of `MotorController.drive_arcade`: clamp both
inputs to `[-1, 1]`, form `left = throttle + steering`,
`right = throttle - steering`, and divide both by
`mag = max (max |left| |right|) 1`. -/
def arcadeMix (throttle steering : ℚ) : ℚ × ℚ :=
  let t := clamp throttle (-1) 1
  let s := clamp steering (-1) 1
  let l := t + s
  let r := t - s
  let mag := max (max |l| |r|) 1
  (l / mag, r / mag)

/-- The `mag` normaliser used by `drive_arcade`. -/
def arcadeMag (throttle steering : ℚ) : ℚ :=
  let t := clamp throttle (-1) 1
  let s := clamp steering (-1) 1
  max (max |t + s| |t - s|) 1

/-- `MotorController.drive_arcade` up to the per-side `_apply_motor` calls:
the normalised pair scaled by the per-side calibration multipliers. -/
def drive_arcade (leftMult rightMult throttle steering : ℚ) : WheelCommand :=
  ⟨(arcadeMix throttle steering).1 * leftMult,
   (arcadeMix throttle steering).2 * rightMult⟩

/-- One side's direction wires, `in1`/`in2` of the TB6612 channel. -/
inductive Wire where
  | in1
  | in2
deriving DecidableEq, Repr

/-- A single hardware write performed by `_apply_motor`: either a direction
signal (`in1.on()` is `dir .in1 true`, …) or a PWM magnitude write
(`pwm.value = q`). -/
inductive HwWrite where
  | dir (w : Wire) (level : Bool)
  | pwm (q : ℚ)
deriving DecidableEq, Repr

/-- `MotorController._apply_motor` for one side, as the ordered list of
hardware writes it performs: clamp to `[-max_pwm, max_pwm]`; positive →
`in1.on(); in2.off(); pwm.value = value`; negative → `in1.off(); in2.on();
pwm.value = -value`; zero → `pwm.value = 0; in1.off(); in2.off()`. -/
def apply_motor (maxPwm value : ℚ) : List HwWrite :=
  let v := clamp value (-maxPwm) maxPwm
  if 0 < v then
    [HwWrite.dir Wire.in1 true, HwWrite.dir Wire.in2 false, HwWrite.pwm v]
  else if v < 0 then
    [HwWrite.dir Wire.in1 false, HwWrite.dir Wire.in2 true, HwWrite.pwm (-v)]
  else
    [HwWrite.pwm 0, HwWrite.dir Wire.in1 false, HwWrite.dir Wire.in2 false]

/-- Break-before-make, scanned over a write list: true iff a `pwm 0` write
occurs before the first direction-signal write (vacuously true when no
direction write occurs). -/
def zeroBeforeDir : List HwWrite → Bool
  | [] => true
  | HwWrite.pwm q :: rest => if q = 0 then true else zeroBeforeDir rest
  | HwWrite.dir _ _ :: _ => false

/-- Sign reversal between two consecutive per-side command values. -/
def SignReversal (prev next : ℚ) : Prop :=
  (prev < 0 ∧ 0 < next) ∨ (0 < prev ∧ next < 0)

instance (prev next : ℚ) : Decidable (SignReversal prev next) := by
  unfold SignReversal
  infer_instance

/-- `AutoAvoidConfig`: the frozen dataclass of `autonomous_vl53l0x.py`.
Distances are integer millimetres; times and speeds are seconds and
unit-range throttles as rationals. -/
structure AutoAvoidConfig where
  addr : ℤ
  fwd_speed : ℚ
  back_speed : ℚ
  turn_steer : ℚ
  clear_mm : ℤ
  near_mm : ℤ
  back_s : ℚ
  turn_s_min : ℚ
  turn_s_max : ℚ
  loop_hz : ℚ
deriving DecidableEq, Repr

/-- The generated `AutoAvoidConfig.__init__` of the frozen dataclass: it
stores every field verbatim, with no validation or normalisation. -/
def mkAutoAvoidConfig (addr : ℤ) (fwd back steer : ℚ) (clear near : ℤ)
    (backS tmin tmax lhz : ℚ) : AutoAvoidConfig :=
  ⟨addr, fwd, back, steer, clear, near, backS, tmin, tmax, lhz⟩

/-- The dataclass field defaults of `AutoAvoidConfig`. -/
def defaultCfg : AutoAvoidConfig :=
  mkAutoAvoidConfig 0x29 (22/100) (18/100) (55/100) 350 220 (40/100)
    (35/100) (70/100) 15

/-- `period_s = 1.0 / max(1.0, cfg.loop_hz)` computed at the top of
`AutoAvoidRunner.run`. -/
def period (cfg : AutoAvoidConfig) : ℚ :=
  1 / max 1 cfg.loop_hz

/-- The state tag reported through `on_status`. -/
inductive StateTag where
  | forward
  | avoid
  | sensor_error
deriving DecidableEq, Repr

/-- One observable action of a loop tick: a `drive_arcade` call, a
`controller.stop()` call, a (bounded) sleep of the given seconds, an
`on_status` report, or a heartbeat callback. -/
inductive Action where
  | drive (throttle steering : ℚ)
  | stop
  | sleep (s : ℚ)
  | status (mm : Option ℤ) (tag : StateTag)
  | beat (throttle steering : ℚ)
deriving DecidableEq, Repr

/-- The loop-local mutable state of `AutoAvoidRunner.run`:
`last_mm` and the `obstacle` flag. -/
structure RunnerState where
  lastMm : Option ℤ
  obstacle : Bool
deriving DecidableEq, Repr

/-- State at the top of `run`: `last_mm = None`, `obstacle = False`. -/
def initRunnerState : RunnerState :=
  ⟨none, false⟩

/-- The random draws one recovery maneuver consumes:
`random.choice([-1.0, 1.0])` (`true` ↦ `1.0`) and
`random.uniform(turn_s_min, turn_s_max)`. -/
structure TickRand where
  dir : Bool
  turnS : ℚ
deriving DecidableEq, Repr

/-- Numeric value of the random turn direction. -/
def dirVal (b : Bool) : ℚ :=
  if b then 1 else -1

/-- The recovery ("obstacle handling") block of `AutoAvoidRunner.run`:
`stop()`, settle 0.08 s; `drive_arcade(-back_speed, 0)` held `back_s`;
`drive_arcade(0, ±turn_steer)` held the random duration; `stop()`,
settle 0.05 s. -/
def recoveryActions (cfg : AutoAvoidConfig) (rnd : TickRand) : List Action :=
  [Action.stop, Action.beat 0 0, Action.sleep (8/100),
   Action.drive (-cfg.back_speed) 0, Action.beat (-cfg.back_speed) 0,
   Action.sleep cfg.back_s,
   Action.drive 0 (dirVal rnd.dir * cfg.turn_steer),
   Action.beat 0 (dirVal rnd.dir * cfg.turn_steer),
   Action.sleep rnd.turnS,
   Action.stop, Action.beat 0 0, Action.sleep (5/100)]

/-- One iteration of the `while not stop_event.is_set()` loop of
`AutoAvoidRunner.run`.  `reading` is the sensor result for this tick
(`none` when `read_mm` raised); each tick consumes exactly one reading.
Returns the emitted actions and the updated loop state. -/
def tick (cfg : AutoAvoidConfig) (st : RunnerState) (reading : Option ℤ)
    (rnd : TickRand) : List Action × RunnerState :=
  match reading with
  | none =>
    ([Action.stop, Action.status st.lastMm StateTag.sensor_error,
      Action.sleep (20/100)], st)
  | some mm =>
    let st1 : RunnerState := { st with lastMm := some mm }
    let statusAct :=
      Action.status (some mm) (if st.obstacle then StateTag.avoid else StateTag.forward)
    let obstacle1 := if mm ≤ cfg.near_mm then true else st.obstacle
    if ¬ obstacle1 ∧ cfg.clear_mm ≤ mm then
      (statusAct ::
        [Action.drive cfg.fwd_speed 0, Action.beat cfg.fwd_speed 0,
         Action.sleep (period cfg)],
       { st1 with obstacle := obstacle1 })
    else
      (statusAct :: recoveryActions cfg rnd, { st1 with obstacle := false })

/-- A tick makes the `Forward → ObstacleDetected` transition iff the flag
was clear and this tick's reading satisfies `mm ≤ near_mm`. -/
def tickDetects (cfg : AutoAvoidConfig) (st : RunnerState)
    (reading : Option ℤ) : Bool :=
  match reading with
  | none => false
  | some mm => !st.obstacle && decide (mm ≤ cfg.near_mm)

/-- Run the loop over a finite list of per-tick inputs, collecting each
tick's action list and whether it made the obstacle transition. -/
def runTicks (cfg : AutoAvoidConfig) :
    RunnerState → List (Option ℤ × TickRand) →
    List (List Action × Bool) × RunnerState
  | st, [] => ([], st)
  | st, (reading, rnd) :: rest =>
    let out := tick cfg st reading rnd
    let next := runTicks cfg out.2 rest
    ((out.1, tickDetects cfg st reading) :: next.1, next.2)

/-- The shared command record of `teleop_web.py`:
`_last_cmd_ts`, `_last_throttle`, `_last_steering`. -/
structure TeleopState where
  lastCmdTs : ℚ
  lastThrottle : ℚ
  lastSteering : ℚ
deriving DecidableEq, Repr

/-- Module-level initial values: `0.0` for all three globals. -/
def initTeleopState : TeleopState :=
  ⟨0, 0, 0⟩

/-- `api_drive` (token accepted, JSON parsed): store the raw floats and the
current time into the shared record, then call
`controller.drive_arcade(throttle, steering)`.  Returns the new record and
the wheel command the controller computes. -/
def api_drive (leftMult rightMult : ℚ) (_st : TeleopState)
    (throttle steering now : ℚ) : TeleopState × WheelCommand :=
  (⟨now, throttle, steering⟩, drive_arcade leftMult rightMult throttle steering)

/-- The JSON body of `api_status`. -/
structure StatusReport where
  last_cmd_age_s : Option ℚ
  deadman_s : ℚ
  throttle : ℚ
  steering : ℚ
  max_pwm : ℚ
  left_mult : ℚ
  right_mult : ℚ
deriving DecidableEq, Repr

/-- `api_status`: `age = time.time() - _last_cmd_ts if _last_cmd_ts else
None` (Python float truthiness: `0.0` is falsy), and the raw stored
throttle/steering are reported verbatim. -/
def api_status (st : TeleopState) (now deadmanS maxPwm leftMult rightMult : ℚ) :
    StatusReport :=
  ⟨if st.lastCmdTs = 0 then none else some (now - st.lastCmdTs),
   deadmanS, st.lastThrottle, st.lastSteering, maxPwm, leftMult, rightMult⟩

/-- One iteration of `_deadman_loop` after its 50 ms sleep: read `ts`;
`if not ts: continue`; call `controller.stop()` iff `now - ts > DEADMAN_S`.
Returns whether this iteration calls `stop()`. -/
def deadmanIterStops (deadmanS ts now : ℚ) : Bool :=
  if ts = 0 then false else decide (deadmanS < now - ts)

/-- The watchdog period: `time.sleep(0.05)` per iteration. -/
def deadmanPeriod : ℚ :=
  5/100

/-- The time of the k-th watchdog iteration when iterations are `p` apart
starting at `t0`. -/
def iterTime (t0 p : ℚ) (k : ℕ) : ℚ :=
  t0 + k * p

/-- `MotorController.__init__` calibration fields: stored verbatim as
floats, with no validation. -/
structure MotorCalib where
  left_mult : ℚ
  right_mult : ℚ
  max_pwm : ℚ
deriving DecidableEq, Repr

/-- The calibration part of `MotorController.__init__`: stores
`left_mult`, `right_mult`, `max_pwm` unchanged. -/
def mkMotorCalib (leftMult rightMult maxPwm : ℚ) : MotorCalib :=
  ⟨leftMult, rightMult, maxPwm⟩

/-! ### Helper lemmas -/

theorem lo_le_clamp {v lo hi : ℚ} (h : lo ≤ hi) : lo ≤ clamp v lo hi := by
  unfold clamp
  split_ifs with h1 h2 <;> linarith

theorem clamp_le_hi {v lo hi : ℚ} (h : lo ≤ hi) : clamp v lo hi ≤ hi := by
  unfold clamp
  split_ifs with h1 h2 <;> linarith

theorem clamp_idem {v lo hi : ℚ} (h : lo ≤ hi) :
    clamp (clamp v lo hi) lo hi = clamp v lo hi := by
  unfold clamp
  split_ifs <;> linarith

theorem clamp_of_mem {v lo hi : ℚ} (h1 : lo ≤ v) (h2 : v ≤ hi) :
    clamp v lo hi = v := by
  unfold clamp
  split_ifs <;> linarith

/-! ### Claim theorems -/

/-- Claim C2, counterexample: the side value switches sign from `-1/2` to
`+1/2`, yet `_apply_motor`'s write sequence for the new command starts with
a direction-signal write — no `pwm 0` write precedes the direction change,
so break-before-make does not hold. -/
theorem c2_break_before_make_cx :
    SignReversal (-(1/2)) (1/2) ∧
    apply_motor 1 (1/2) =
      [HwWrite.dir Wire.in1 true, HwWrite.dir Wire.in2 false,
       HwWrite.pwm (1/2)] ∧
    zeroBeforeDir (apply_motor 1 (1/2)) = false := by
  refine ⟨Or.inl ⟨by norm_num, by norm_num⟩, ?_, ?_⟩ <;>
    norm_num [apply_motor, clamp, zeroBeforeDir]

/-- Claim C2, amended: whenever the clamped side value is nonzero (in
particular after any sign reversal), `_apply_motor` writes the two
direction signals first and the magnitude last; the magnitude is never
driven to zero before the direction signals change. -/
theorem c2_dir_before_magnitude (maxPwm value : ℚ)
    (h : clamp value (-maxPwm) maxPwm ≠ 0) :
    (apply_motor maxPwm value =
       [HwWrite.dir Wire.in1 true, HwWrite.dir Wire.in2 false,
        HwWrite.pwm (clamp value (-maxPwm) maxPwm)] ∨
     apply_motor maxPwm value =
       [HwWrite.dir Wire.in1 false, HwWrite.dir Wire.in2 true,
        HwWrite.pwm (-clamp value (-maxPwm) maxPwm)]) ∧
    zeroBeforeDir (apply_motor maxPwm value) = false := by
  unfold apply_motor
  rcases lt_trichotomy (clamp value (-maxPwm) maxPwm) 0 with hneg | hzero | hpos
  · rw [if_neg (by linarith), if_pos hneg]
    exact ⟨Or.inr rfl, rfl⟩
  · exact absurd hzero h
  · rw [if_pos hpos]
    exact ⟨Or.inl rfl, rfl⟩

/-- Witness for `c2_dir_before_magnitude` at `maxPwm = 1`, `value = 1/2`. -/
theorem c2_dir_before_magnitude_witness :
    clamp (1/2) (-1) 1 ≠ 0 ∧
    ((apply_motor 1 (1/2) =
        [HwWrite.dir Wire.in1 true, HwWrite.dir Wire.in2 false,
         HwWrite.pwm (clamp (1/2) (-1) 1)] ∨
      apply_motor 1 (1/2) =
        [HwWrite.dir Wire.in1 false, HwWrite.dir Wire.in2 true,
         HwWrite.pwm (-clamp (1/2) (-1) 1)]) ∧
     zeroBeforeDir (apply_motor 1 (1/2)) = false) :=
  ⟨by norm_num [clamp], c2_dir_before_magnitude 1 (1/2) (by norm_num [clamp])⟩

/-- Claim C5: `_apply_motor` first clamps the input to
`[-max_pwm, max_pwm]` (applying it to an already-clamped value changes
nothing), and every PWM magnitude it writes lies in `[0, max_pwm]`, for an
input of any magnitude. -/
theorem c5_apply_clamps_to_max_pwm (maxPwm : ℚ) (h : 0 ≤ maxPwm) (value : ℚ) :
    apply_motor maxPwm value =
      apply_motor maxPwm (clamp value (-maxPwm) maxPwm) ∧
    ∀ q, HwWrite.pwm q ∈ apply_motor maxPwm value → 0 ≤ q ∧ q ≤ maxPwm := by
  have hle : -maxPwm ≤ maxPwm := by linarith
  constructor
  · unfold apply_motor
    rw [clamp_idem hle]
  · intro q hq
    have h1 := lo_le_clamp (v := value) hle
    have h2 := clamp_le_hi (v := value) hle
    simp only [apply_motor] at hq
    split_ifs at hq with hpos hneg
    · simp at hq
      subst hq
      exact ⟨by linarith, by linarith⟩
    · simp at hq
      subst hq
      exact ⟨by linarith, by linarith⟩
    · simp at hq
      subst hq
      exact ⟨le_rfl, h⟩

/-- Witness for `c5_apply_clamps_to_max_pwm` at `max_pwm = 3/5`,
`value = 2`: the written PWM magnitude `3/5` lies in `[0, 3/5]`. -/
theorem c5_apply_clamps_to_max_pwm_witness :
    0 ≤ (3/5 : ℚ) ∧ (0 ≤ (3/5 : ℚ) ∧ (3/5 : ℚ) ≤ 3/5) :=
  ⟨by norm_num,
   (c5_apply_clamps_to_max_pwm (3/5) (by norm_num) 2).2 (3/5)
     (by norm_num [apply_motor, clamp])⟩

/-- Claim C6: `drive_arcade` clamps both inputs to `[-1, 1]`, forms
`left = throttle + steering` and `right = throttle - steering`, divides
both by `mag = max (max |left| |right|) 1` — so `1 ≤ mag` (attenuation
only) and both normalised magnitudes are at most `1` — leaves the pair
unchanged exactly when `mag = 1`, and finally multiplies by the per-side
calibration multipliers; it is a total function. -/
theorem c6_arcade_mix_normalized (throttle steering leftMult rightMult : ℚ) :
    (-1 ≤ clamp throttle (-1) 1 ∧ clamp throttle (-1) 1 ≤ 1) ∧
    (-1 ≤ clamp steering (-1) 1 ∧ clamp steering (-1) 1 ≤ 1) ∧
    arcadeMix throttle steering =
      ((clamp throttle (-1) 1 + clamp steering (-1) 1) / arcadeMag throttle steering,
       (clamp throttle (-1) 1 - clamp steering (-1) 1) / arcadeMag throttle steering) ∧
    1 ≤ arcadeMag throttle steering ∧
    |(arcadeMix throttle steering).1| ≤ 1 ∧
    |(arcadeMix throttle steering).2| ≤ 1 ∧
    (arcadeMag throttle steering = 1 →
      arcadeMix throttle steering =
        (clamp throttle (-1) 1 + clamp steering (-1) 1,
         clamp throttle (-1) 1 - clamp steering (-1) 1)) ∧
    drive_arcade leftMult rightMult throttle steering =
      ⟨(arcadeMix throttle steering).1 * leftMult,
       (arcadeMix throttle steering).2 * rightMult⟩ := by
  have hone : (-1 : ℚ) ≤ 1 := by norm_num
  have hmag : 1 ≤ arcadeMag throttle steering := le_max_right _ _
  have hmag0 : 0 < arcadeMag throttle steering := by linarith
  have hmix : arcadeMix throttle steering =
      ((clamp throttle (-1) 1 + clamp steering (-1) 1) / arcadeMag throttle steering,
       (clamp throttle (-1) 1 - clamp steering (-1) 1) / arcadeMag throttle steering) := by
    simp [arcadeMix, arcadeMag]
  have habsL : |clamp throttle (-1) 1 + clamp steering (-1) 1| ≤
      arcadeMag throttle steering :=
    le_trans (le_max_left _ _) (le_max_left _ _)
  have habsR : |clamp throttle (-1) 1 - clamp steering (-1) 1| ≤
      arcadeMag throttle steering :=
    le_trans (le_max_right _ _) (le_max_left _ _)
  refine ⟨⟨lo_le_clamp hone, clamp_le_hi hone⟩,
          ⟨lo_le_clamp hone, clamp_le_hi hone⟩, hmix, hmag, ?_, ?_, ?_, rfl⟩
  · rw [hmix]
    rw [abs_div, abs_of_pos hmag0, div_le_one hmag0]
    exact habsL
  · rw [hmix]
    rw [abs_div, abs_of_pos hmag0, div_le_one hmag0]
    exact habsR
  · intro h1
    rw [hmix, h1, div_one, div_one]

/-- Witness for `c6_arcade_mix_normalized` at
`throttle = 1/2`, `steering = 0`, unit multipliers. -/
theorem c6_arcade_mix_normalized_witness :
    (-1 ≤ clamp (1/2) (-1) 1 ∧ clamp (1/2) (-1) 1 ≤ 1) ∧
    (-1 ≤ clamp 0 (-1) 1 ∧ clamp 0 (-1) 1 ≤ 1) ∧
    arcadeMix (1/2) 0 =
      ((clamp (1/2) (-1) 1 + clamp 0 (-1) 1) / arcadeMag (1/2) 0,
       (clamp (1/2) (-1) 1 - clamp 0 (-1) 1) / arcadeMag (1/2) 0) ∧
    1 ≤ arcadeMag (1/2) 0 ∧
    |(arcadeMix (1/2) 0).1| ≤ 1 ∧
    |(arcadeMix (1/2) 0).2| ≤ 1 ∧
    (arcadeMag (1/2) 0 = 1 →
      arcadeMix (1/2) 0 =
        (clamp (1/2) (-1) 1 + clamp 0 (-1) 1,
         clamp (1/2) (-1) 1 - clamp 0 (-1) 1)) ∧
    drive_arcade 1 1 (1/2) 0 =
      ⟨(arcadeMix (1/2) 0).1 * 1, (arcadeMix (1/2) 0).2 * 1⟩ :=
  c6_arcade_mix_normalized (1/2) 0 1 1

/-- The actions of a clear-path tick of `AutoAvoidRunner.run`:
status report, `drive_arcade(fwd_speed, 0)`, heartbeat, loop-period sleep. -/
def fwdTickActs (cfg : AutoAvoidConfig) (mm : ℤ) : List Action :=
  [Action.status (some mm) StateTag.forward, Action.drive cfg.fwd_speed 0,
   Action.beat cfg.fwd_speed 0, Action.sleep (period cfg)]

/-- Claim C1, counterexample: with the default thresholds
(`near_mm = 220 < clear_mm = 350`), the flag clear and a reading of
`300` strictly between them, the tick does not merely re-evaluate — it
issues `stop()` and a reverse drive command, i.e. the full recovery
maneuver runs. -/
theorem c1_between_thresholds_cx :
    defaultCfg.near_mm = 220 ∧ defaultCfg.clear_mm = 350 ∧
    initRunnerState.obstacle = false ∧
    Action.stop ∈ (tick defaultCfg initRunnerState (some 300) ⟨true, 1/2⟩).1 ∧
    Action.drive (-(18/100)) 0 ∈
      (tick defaultCfg initRunnerState (some 300) ⟨true, 1/2⟩).1 := by
  refine ⟨rfl, rfl, rfl, ?_, ?_⟩ <;>
    simp [tick, defaultCfg, mkAutoAvoidConfig, initRunnerState, recoveryActions]

/-- Claim C1, amended: on a reading strictly between `near_mm` and
`clear_mm` with the obstacle flag clear, the tick does not set the flag
(no `Forward → ObstacleDetected` transition), but it does run the full
recovery maneuver — status report followed by stop/back/turn/stop — and
ends with the flag clear; there is no hysteresis band in which the
controller merely re-evaluates. -/
theorem c1_between_thresholds_amended (cfg : AutoAvoidConfig)
    (st : RunnerState) (mm : ℤ) (rnd : TickRand)
    (hobs : st.obstacle = false)
    (h1 : cfg.near_mm < mm) (h2 : mm < cfg.clear_mm) :
    tick cfg st (some mm) rnd =
      (Action.status (some mm) StateTag.forward :: recoveryActions cfg rnd,
       ⟨some mm, false⟩) ∧
    tickDetects cfg st (some mm) = false := by
  have hn : ¬ (mm ≤ cfg.near_mm) := not_le.mpr h1
  have hc : ¬ (cfg.clear_mm ≤ mm) := not_le.mpr h2
  constructor
  · simp [tick, hobs, hn, hc]
  · simp [tickDetects, hobs, hn]

/-- Witness for `c1_between_thresholds_amended` at the default
configuration and a reading of `300`. -/
theorem c1_between_thresholds_amended_witness :
    initRunnerState.obstacle = false ∧
    defaultCfg.near_mm < 300 ∧ (300 : ℤ) < defaultCfg.clear_mm ∧
    (tick defaultCfg initRunnerState (some 300) ⟨true, 1/2⟩ =
       (Action.status (some 300) StateTag.forward ::
          recoveryActions defaultCfg ⟨true, 1/2⟩,
        ⟨some 300, false⟩) ∧
     tickDetects defaultCfg initRunnerState (some 300) = false) :=
  ⟨rfl, by norm_num [defaultCfg, mkAutoAvoidConfig],
   by norm_num [defaultCfg, mkAutoAvoidConfig],
   c1_between_thresholds_amended defaultCfg initRunnerState 300 ⟨true, 1/2⟩
     rfl (by norm_num [defaultCfg, mkAutoAvoidConfig])
     (by norm_num [defaultCfg, mkAutoAvoidConfig])⟩

/-- Claim C3: with `clear_mm = 350` and `near_mm = 220`, processing the
readings `400, 400, 150` from the initial state gives two plain forward
ticks and then, at the first `≤ near_mm` reading, the single
`Forward → ObstacleDetected` transition; that tick immediately runs the
complete recovery sequence in order — `stop()` with the 0.08 s settle,
`drive(-back_speed, 0)` held `back_s`, the random-direction turn
`drive(0, ±turn_steer)` held the random duration (within the configured
bounds), `stop()` with the 0.05 s settle — consuming no further sensor
reading, and ends with the obstacle flag cleared, back in `Forward`. -/
theorem c3_single_detection_recovery (cfg : AutoAvoidConfig)
    (r1 r2 r3 : TickRand)
    (hclear : cfg.clear_mm = 350) (hnear : cfg.near_mm = 220)
    (hmin : cfg.turn_s_min ≤ r3.turnS) (hmax : r3.turnS ≤ cfg.turn_s_max) :
    runTicks cfg initRunnerState
        [(some 400, r1), (some 400, r2), (some 150, r3)] =
      ([(fwdTickActs cfg 400, false),
        (fwdTickActs cfg 400, false),
        (Action.status (some 150) StateTag.forward :: recoveryActions cfg r3,
         true)],
       ⟨some 150, false⟩) ∧
    cfg.turn_s_min ≤ r3.turnS ∧ r3.turnS ≤ cfg.turn_s_max := by
  refine ⟨?_, hmin, hmax⟩
  norm_num [runTicks, tick, tickDetects, hclear, hnear, initRunnerState,
    fwdTickActs]

/-- Witness for `c3_single_detection_recovery` at the default
configuration with both random draws fixed to a right turn of 0.5 s. -/
theorem c3_single_detection_recovery_witness :
    defaultCfg.turn_s_min ≤ (1/2 : ℚ) ∧ (1/2 : ℚ) ≤ defaultCfg.turn_s_max ∧
    (runTicks defaultCfg initRunnerState
        [(some 400, ⟨true, 1/2⟩), (some 400, ⟨true, 1/2⟩),
         (some 150, ⟨true, 1/2⟩)] =
       ([(fwdTickActs defaultCfg 400, false),
         (fwdTickActs defaultCfg 400, false),
         (Action.status (some 150) StateTag.forward ::
            recoveryActions defaultCfg ⟨true, 1/2⟩, true)],
        ⟨some 150, false⟩) ∧
     defaultCfg.turn_s_min ≤ (1/2 : ℚ) ∧
     (1/2 : ℚ) ≤ defaultCfg.turn_s_max) :=
  ⟨by norm_num [defaultCfg, mkAutoAvoidConfig],
   by norm_num [defaultCfg, mkAutoAvoidConfig],
   c3_single_detection_recovery defaultCfg ⟨true, 1/2⟩ ⟨true, 1/2⟩ ⟨true, 1/2⟩
     rfl rfl (by norm_num [defaultCfg, mkAutoAvoidConfig])
     (by norm_num [defaultCfg, mkAutoAvoidConfig])⟩

/-- Claim C8: a tick whose sensor read fails issues `stop()`, reports the
`sensor_error` status carrying the last known distance, sleeps the bounded
0.2 s backoff, and leaves the loop state unchanged — and this holds for
any number of consecutive failing ticks: the loop processes all of them
and never terminates on a sensor failure. -/
theorem c8_sensor_error_transient (cfg : AutoAvoidConfig) (st : RunnerState)
    (rnd : TickRand) (n : ℕ) :
    runTicks cfg st (List.replicate n ((none : Option ℤ), rnd)) =
      (List.replicate n
        ([Action.stop, Action.status st.lastMm StateTag.sensor_error,
          Action.sleep (20/100)], false), st) := by
  induction n with
  | zero => simp [runTicks]
  | succ k ih => simp [List.replicate_succ, runTicks, tick, tickDetects, ih]

/-- Claim C4: once a command has been recorded (`ts ≠ 0`), every watchdog
iteration observing `now - ts > DEADMAN_S` calls `stop()`; and for
iterations spaced `p` apart, whenever the gap has exceeded the threshold
by some time `T`, an iteration falls within the next period `(T, T + p]`
and it stops the motors. -/
theorem c4_deadman_stops_within_period (deadmanS ts t0 p T : ℚ)
    (hts : ts ≠ 0) (hp : 0 < p) (ht0 : t0 ≤ T) (hT : ts + deadmanS ≤ T) :
    (∀ now, deadmanS < now - ts → deadmanIterStops deadmanS ts now = true) ∧
    ∃ k : ℕ, T < iterTime t0 p k ∧ iterTime t0 p k ≤ T + p ∧
      deadmanIterStops deadmanS ts (iterTime t0 p k) = true := by
  have hstop : ∀ now, deadmanS < now - ts →
      deadmanIterStops deadmanS ts now = true := by
    intro now hgap
    unfold deadmanIterStops
    rw [if_neg hts]
    exact decide_eq_true hgap
  refine ⟨hstop, ?_⟩
  set x := (T - t0) / p with hx
  have hx0 : 0 ≤ x := div_nonneg (by linarith) hp.le
  have hxp : x * p = T - t0 := div_mul_cancel₀ _ (ne_of_gt hp)
  have hflo : (⌊x⌋₊ : ℚ) ≤ x := Nat.floor_le hx0
  have hcei : x < (⌊x⌋₊ : ℚ) + 1 := Nat.lt_floor_add_one x
  have hmul1 : x * p < ((⌊x⌋₊ : ℚ) + 1) * p := mul_lt_mul_of_pos_right hcei hp
  have hmul2 : ((⌊x⌋₊ : ℚ)) * p ≤ x * p := mul_le_mul_of_nonneg_right hflo hp.le
  have hgt : T < iterTime t0 p (⌊x⌋₊ + 1) := by
    unfold iterTime
    push_cast
    nlinarith [hmul1, hxp]
  have hle2 : iterTime t0 p (⌊x⌋₊ + 1) ≤ T + p := by
    unfold iterTime
    push_cast
    nlinarith [hmul2, hxp]
  exact ⟨⌊x⌋₊ + 1, hgt, hle2, hstop _ (by linarith)⟩

/-- Witness for `c4_deadman_stops_within_period`: threshold 0.35 s,
command recorded at `ts = 1`, watchdog starting at 0 with period 0.05 s,
and the gap exceeded at `T = 1.35`. -/
theorem c4_deadman_stops_within_period_witness :
    (1 : ℚ) ≠ 0 ∧ (0 : ℚ) < 1/20 ∧ (0 : ℚ) ≤ 27/20 ∧
    (1 : ℚ) + 7/20 ≤ 27/20 ∧
    ((∀ now, (7/20 : ℚ) < now - 1 → deadmanIterStops (7/20) 1 now = true) ∧
     ∃ k : ℕ, (27/20 : ℚ) < iterTime 0 (1/20) k ∧
       iterTime 0 (1/20) k ≤ 27/20 + 1/20 ∧
       deadmanIterStops (7/20) 1 (iterTime 0 (1/20) k) = true) :=
  ⟨by norm_num, by norm_num, by norm_num, by norm_num,
   c4_deadman_stops_within_period (7/20) 1 0 (1/20) (27/20) (by norm_num)
     (by norm_num) (by norm_num) (by norm_num)⟩

/-- Claim C7, counterexample: constructing `AutoAvoidConfig` with
`near_mm = 500 ≥ clear_mm = 350`, an out-of-range speed, a negative
`back_s`, `turn_s_min > turn_s_max` and `loop_hz = 0`, and a
`MotorController` calibration with a negative multiplier and
`max_pwm = 5`, succeeds and stores every invalid value verbatim —
nothing is rejected or normalised at construction. -/
theorem c7_no_validation_cx :
    mkAutoAvoidConfig 41 5 (-2) 3 350 500 (-1) (7/10) (7/20) 0 =
      ⟨41, 5, -2, 3, 350, 500, -1, 7/10, 7/20, 0⟩ ∧
    (mkAutoAvoidConfig 41 5 (-2) 3 350 500 (-1) (7/10) (7/20) 0).clear_mm ≤
      (mkAutoAvoidConfig 41 5 (-2) 3 350 500 (-1) (7/10) (7/20) 0).near_mm ∧
    mkMotorCalib (-1) 0 5 = ⟨-1, 0, 5⟩ :=
  ⟨rfl, by norm_num [mkAutoAvoidConfig], rfl⟩

/-- Claim C7, amended: construction performs no validation or
normalisation — the configuration and calibration constructors store
arbitrary numeric values verbatim; normalisation happens only at use
time, where `run()` clamps `loop_hz` below by 1 when computing the loop
period and `drive_arcade` clamps throttle/steering at drive time. -/
theorem c7_constructors_store_verbatim (addr : ℤ) (fwd back steer : ℚ)
    (clear near : ℤ) (backS tmin tmax lhz lm rm mp t s : ℚ) :
    mkAutoAvoidConfig addr fwd back steer clear near backS tmin tmax lhz =
      ⟨addr, fwd, back, steer, clear, near, backS, tmin, tmax, lhz⟩ ∧
    mkMotorCalib lm rm mp = ⟨lm, rm, mp⟩ ∧
    period (mkAutoAvoidConfig addr fwd back steer clear near backS tmin tmax lhz) =
      1 / max 1 lhz ∧
    drive_arcade lm rm t s =
      drive_arcade lm rm (clamp t (-1) 1) (clamp s (-1) 1) := by
  have e1 : clamp (clamp t (-1) 1) (-1) 1 = clamp t (-1) 1 :=
    clamp_idem (by norm_num)
  have e2 : clamp (clamp s (-1) 1) (-1) 1 = clamp s (-1) 1 :=
    clamp_idem (by norm_num)
  refine ⟨rfl, rfl, rfl, ?_⟩
  simp [drive_arcade, arcadeMix, e1, e2]

/-- Claim C9: before the first command is recorded the timestamp still
holds its initial value `0.0`; the watchdog iteration then never calls
`stop()` no matter the current time, and `api_status` reports the command
age as `None` rather than a number. -/
theorem c9_deadman_idle_before_first_command
    (now deadmanS maxPwm lm rm : ℚ) :
    initTeleopState.lastCmdTs = 0 ∧
    deadmanIterStops deadmanS initTeleopState.lastCmdTs now = false ∧
    (api_status initTeleopState now deadmanS maxPwm lm rm).last_cmd_age_s =
      none := by
  refine ⟨rfl, ?_, ?_⟩ <;> simp [deadmanIterStops, api_status, initTeleopState]

/-- Claim C10: `api_drive` stores the raw throttle/steering floats
unclamped in the shared record (so `api_status` reports them verbatim,
including values outside `[-1, 1]`), while the actuator path goes through
`drive_arcade`, which clamps — mixing the raw values and the clamped
values produces the same wheel command. -/
theorem c10_status_reports_raw_command (st : TeleopState)
    (t s now deadmanS maxPwm lm rm : ℚ) :
    (api_drive lm rm st t s now).1 = ⟨now, t, s⟩ ∧
    (api_status (api_drive lm rm st t s now).1 now deadmanS maxPwm lm rm).throttle
      = t ∧
    (api_status (api_drive lm rm st t s now).1 now deadmanS maxPwm lm rm).steering
      = s ∧
    (api_drive lm rm st t s now).2 = drive_arcade lm rm t s ∧
    drive_arcade lm rm t s =
      drive_arcade lm rm (clamp t (-1) 1) (clamp s (-1) 1) := by
  have e1 : clamp (clamp t (-1) 1) (-1) 1 = clamp t (-1) 1 :=
    clamp_idem (by norm_num)
  have e2 : clamp (clamp s (-1) 1) (-1) 1 = clamp s (-1) 1 :=
    clamp_idem (by norm_num)
  refine ⟨rfl, rfl, rfl, rfl, ?_⟩
  simp [drive_arcade, arcadeMix, e1, e2]

end PiRobot
